import Mathlib

/-!
Verification of the Gemini relay server (src/server.js).

The server bridges a downstream (Unity) WebSocket client to the upstream
Gemini bidirectional streaming API.  Per downstream client it keeps one
`connectionData` record in the `clientConnections` map: the current upstream
socket, the conversation log, the two utterance accumulators, the pending
audio buffers, the reconnect counter and the timer handles.

This file is a shallow embedding of that code:

* pure per-record logic (the `clientWs.on("message")` dispatcher, the
  `geminiWs.on("message")` / `on("pong")` handlers, the watchdog tick body,
  `buildConversationHistory`, the history trim) is embedded as Lean
  functions on a `ConnectionData` record;
* the lifecycle machinery (timer scheduling and cancellation,
  `setupGeminiConnection`, the `geminiWs.on("close")` and
  `clientWs.on("close")` handlers, timer firing) is embedded as functions on
  an explicit single-client system state `SysState` holding the registry
  entry, the set of pending timers and the set of open sockets; time and
  the (network-dependent) credential environment are passed explicitly.

JavaScript specifics are modelled as follows: `Date.now()` is an explicit
`now : Nat` argument; `String.prototype.trim` is `jsTrim`; the truthiness
test `if (data.text)` on a string field is a non-emptiness test;
`Buffer.from(x, "base64").toString("utf-8")` is `decodeBase64Utf8` (the
source swallows decode failures, so a decode failure is modelled as a
skip).  Machine integers do not overflow in the source (timestamps and
counters), so plain `Nat` is used.
-/

namespace GeminiRelay

/-- `PING_INTERVAL` from server.js line 20: the watchdog probes every 20 s. -/
def PING_INTERVAL : Nat := 20000

/-- `PONG_TIMEOUT` from server.js line 21: 45 s without a pong forces a close. -/
def PONG_TIMEOUT : Nat := 45000

/-- The role tag of a conversation-log entry (`"user"` / `"assistant"`). -/
inductive Role
  | user
  | assistant
deriving DecidableEq

/-- One entry of `connection.conversationLog`: `{ role, text, timestamp }`. -/
structure ConversationEntry where
  role : Role
  text : String
  timestamp : Nat
deriving DecidableEq

/-- Whitespace characters stripped by JavaScript `String.prototype.trim`
(the source only ever produces the ASCII ones). -/
def isJsWhitespace (c : Char) : Bool :=
  c == ' ' || c == '\t' || c == '\n' || c == '\r' ||
  c == Char.ofNat 11 || c == Char.ofNat 12

/-- Model of JavaScript `String.prototype.trim`. -/
def jsTrim (s : String) : String :=
  String.mk (((s.toList.dropWhile isJsWhitespace).reverse.dropWhile isJsWhitespace).reverse)

/-- The per-client record stored in `clientConnections` (server.js lines
110-123).  `gemini` is the identity of the upstream socket the record owns;
`reconnectTimeout` and `pingInterval` hold timer ids when a timer handle is
stored. -/
structure ConnectionData where
  gemini : Nat
  reconnectTimeout : Option Nat
  conversationLog : List ConversationEntry
  pingInterval : Option Nat
  lastPong : Nat
  lastPing : Nat
  currentUserText : String
  currentAssistantText : String
  reconnectCount : Nat
  audioBuffers : List String
deriving DecidableEq

/-- The fresh record built by `setupGeminiConnection` (server.js lines
104-123): the conversation log is carried over from the existing record,
the reconnect counter is the existing one plus one (or `0` for the first
connection), everything else starts fresh. -/
def mkConnectionData (existing : Option ConnectionData) (wsId : Nat) (now : Nat) :
    ConnectionData :=
  { gemini := wsId
    reconnectTimeout := none
    conversationLog := match existing with
      | some e => e.conversationLog
      | none => []
    pingInterval := none
    lastPong := now
    lastPing := now
    currentUserText := ""
    currentAssistantText := ""
    reconnectCount := match existing with
      | some e => e.reconnectCount + 1
      | none => 0
    audioBuffers := [] }

/-- `inlineData` of a model-turn part: `{ mimeType, data }`. -/
structure InlineData where
  mimeType : String
  data : String
deriving DecidableEq

/-- One element of `serverContent.modelTurn.parts`. -/
structure MsgPart where
  text : Option String
  inlineData : Option InlineData
deriving DecidableEq

/-- The `serverContent` field of an upstream event; a missing
`modelTurn.parts` is normalised to `[]` by the source (`parts || []`), so
`modelTurn` directly carries the parts list. -/
structure ServerContent where
  modelTurn : Option (List MsgPart)
  turnComplete : Bool
deriving DecidableEq

/-- A parsed upstream (Gemini) event. -/
structure GeminiMsg where
  serverContent : Option ServerContent
deriving DecidableEq

/-- Messages the relay sends upstream to Gemini: the one-time `setup`
handshake, `realtime_input` with one media chunk, the bare `realtime_input
\x7b\x7d` end-of-turn marker, and `interrupt`. -/
inductive UpMsg
  | setup (systemInstruction : String)
  | realtimeAudio (mimeType : String) (data : String)
  | realtimeEndOfTurn
  | interruptSignal
deriving DecidableEq

/-- Envelopes the relay sends to the downstream client. -/
inductive DownMsg
  | ready (historyRestored : Bool) (reconnectCount : Nat)
  | reconnecting (message : String) (reconnectCount : Nat)
  | geminiResponse (data : GeminiMsg)
  | errorMsg (message : String)
  | historyCleared
deriving DecidableEq

/-- A parsed downstream client message, classified by its `type` tag. -/
inductive ClientMsg
  | audioChunk (audio : String)
  | turnComplete
  | interrupt
  | clearHistory
  | userTranscript (text : String)
  | unrecognized
deriving DecidableEq

/-- The `clientWs.on("message")` dispatcher (server.js lines 371-443),
as a function of the current record.  `geminiOpen` is
`geminiWs.readyState === WebSocket.OPEN` for the record's socket and
`clientOpen` is `clientWs.readyState === WebSocket.OPEN`.  Returns the
updated record, the messages sent upstream and the messages sent
downstream. -/
def clientMessageHandler (geminiOpen clientOpen : Bool) (now : Nat)
    (connection : ConnectionData) (msg : ClientMsg) :
    ConnectionData × List UpMsg × List DownMsg :=
  match msg with
  | .audioChunk audio =>
    if geminiOpen then
      ({ connection with audioBuffers := connection.audioBuffers ++ [audio] },
       [.realtimeAudio "audio/pcm" audio], [])
    else (connection, [], [])
  | .turnComplete =>
    if geminiOpen then
      let connection :=
        if jsTrim connection.currentUserText ≠ "" then
          { connection with
              conversationLog := connection.conversationLog ++
                [{ role := .user, text := jsTrim connection.currentUserText,
                   timestamp := now }],
              currentUserText := "" }
        else connection
      ({ connection with audioBuffers := [] }, [.realtimeEndOfTurn], [])
    else (connection, [], [])
  | .interrupt =>
    if geminiOpen then (connection, [.interruptSignal], [])
    else (connection, [], [])
  | .clearHistory =>
    ({ connection with
        conversationLog := [], currentUserText := "",
        currentAssistantText := "", audioBuffers := [] },
     [],
     if clientOpen then [.historyCleared] else [])
  | .userTranscript text =>
    if text ≠ "" then
      ({ connection with currentUserText := connection.currentUserText ++ " " ++ text },
       [], [])
    else (connection, [], [])
  | .unrecognized => (connection, [], [])

/-- Runs a list of downstream messages through `clientMessageHandler` in
arrival order, concatenating the sends. -/
def runClientMsgs (geminiOpen clientOpen : Bool) (now : Nat) :
    ConnectionData → List ClientMsg → ConnectionData × List UpMsg × List DownMsg
  | connection, [] => (connection, [], [])
  | connection, m :: ms =>
    let r := clientMessageHandler geminiOpen clientOpen now connection m
    let rest := runClientMsgs geminiOpen clientOpen now r.1 ms
    (rest.1, r.2.1 ++ rest.2.1, r.2.2 ++ rest.2.2)

/-- Value of a base64 alphabet character. -/
def b64Val (c : Char) : Option Nat :=
  if 'A' ≤ c ∧ c ≤ 'Z' then some (c.toNat - 'A'.toNat)
  else if 'a' ≤ c ∧ c ≤ 'z' then some (c.toNat - 'a'.toNat + 26)
  else if '0' ≤ c ∧ c ≤ '9' then some (c.toNat - '0'.toNat + 52)
  else if c = '+' then some 62
  else if c = '/' then some 63
  else none

/-- Groups of four sextets yield three bytes; a trailing group of three or
two sextets yields two bytes or one byte (as Node's lenient base64 decoder
does); a lone trailing sextet yields nothing. -/
def sextetsToBytes : List Nat → List Nat
  | a :: b :: c :: d :: rest =>
    (a * 4 + b / 16) :: ((b % 16) * 16 + c / 4) :: ((c % 4) * 64 + d) :: sextetsToBytes rest
  | [a, b, c] => [a * 4 + b / 16, (b % 16) * 16 + c / 4]
  | [a, b] => [a * 4 + b / 16]
  | [_] => []
  | [] => []

/-- Is `b` a UTF-8 continuation byte? -/
def isContByte (b : Nat) : Bool := 0x80 ≤ b && b < 0xC0

/-- Fuel-indexed UTF-8 decoder over a byte list; fails on malformed
sequences.  (Node's `toString("utf-8")` instead substitutes U+FFFD; no
claim exercises malformed input, and the source swallows any decode
problem, so failure here lands in the same swallowed-skip path.) -/
def utf8DecodeAux : Nat → List Nat → Option (List Char)
  | _, [] => some []
  | 0, _ :: _ => none
  | fuel + 1, b :: bs =>
    if b < 0x80 then
      (utf8DecodeAux fuel bs).map (fun cs => Char.ofNat b :: cs)
    else if b < 0xC0 then none
    else if b < 0xE0 then
      match bs with
      | b1 :: rest =>
        if isContByte b1 then
          (utf8DecodeAux fuel rest).map
            (fun cs => Char.ofNat ((b - 0xC0) * 64 + (b1 - 0x80)) :: cs)
        else none
      | [] => none
    else if b < 0xF0 then
      match bs with
      | b1 :: b2 :: rest =>
        if isContByte b1 && isContByte b2 then
          (utf8DecodeAux fuel rest).map
            (fun cs => Char.ofNat ((b - 0xE0) * 4096 + (b1 - 0x80) * 64 + (b2 - 0x80)) :: cs)
        else none
      | _ => none
    else if b < 0xF8 then
      match bs with
      | b1 :: b2 :: b3 :: rest =>
        if isContByte b1 && isContByte b2 && isContByte b3 then
          (utf8DecodeAux fuel rest).map
            (fun cs => Char.ofNat ((b - 0xF0) * 262144 + (b1 - 0x80) * 4096 +
              (b2 - 0x80) * 64 + (b3 - 0x80)) :: cs)
        else none
      | _ => none
    else none

/-- Model of `Buffer.from(s, "base64").toString("utf-8")` (server.js lines
248-251): characters outside the base64 alphabet (including `=` padding)
are skipped, the sextets are packed into bytes, and the bytes are decoded
as UTF-8. -/
def decodeBase64Utf8 (s : String) : Option String :=
  let bytes := sextetsToBytes (s.toList.filterMap b64Val)
  (utf8DecodeAux bytes.length bytes).map String.mk

/-- The part-scanning loop of the upstream message handler (server.js lines
237-257): `part.text` is appended to the assistant accumulator, and a
`text/plain` inline payload with non-empty data is base64-decoded and
appended, decode failures being swallowed. -/
def accumulatePart (c : ConnectionData) (p : MsgPart) : ConnectionData :=
  let c :=
    match p.text with
    | some t => { c with currentAssistantText := c.currentAssistantText ++ t }
    | none => c
  match p.inlineData with
  | some idata =>
    if idata.mimeType = "text/plain" ∧ idata.data ≠ "" then
      match decodeBase64Utf8 idata.data with
      | some decoded =>
        { c with currentAssistantText := c.currentAssistantText ++ decoded }
      | none => c
    else c
  | none => c

/-- The whole `parts.forEach` loop. -/
def accumulateParts (connection : ConnectionData) (parts : List MsgPart) :
    ConnectionData :=
  parts.foldl accumulatePart connection

/-- The `turnComplete` branch of the upstream message handler (server.js
lines 261-287): when the accumulated assistant text is non-empty after
trimming, push it as an `assistant` entry, clear the accumulator, and trim
the log to its most recent 30 entries when it exceeds 30. -/
def flushAssistant (now : Nat) (connection : ConnectionData) : ConnectionData :=
  if jsTrim connection.currentAssistantText ≠ "" then
    let log := connection.conversationLog ++
      [{ role := .assistant, text := jsTrim connection.currentAssistantText,
         timestamp := now }]
    let log := if log.length > 30 then log.drop (log.length - 30) else log
    { connection with conversationLog := log, currentAssistantText := "" }
  else connection

/-- The `geminiWs.on("message")` handler (server.js lines 227-307).
`selfId` is the identity of the upstream socket this handler is bound to;
the body looks the current record up by the client key
(`clientConnections.get(clientWs)`) and never consults `selfId`, exactly
as the source does.  Returns the (possibly absent) record and the
downstream sends. -/
def geminiMessageHandler (selfId : Nat) (clientOpen : Bool) (now : Nat)
    (connection : Option ConnectionData) (msg : GeminiMsg) :
    Option ConnectionData × List DownMsg :=
  match connection with
  | none => (none, [])
  | some c =>
    let c :=
      match msg.serverContent with
      | none => c
      | some sc =>
        let c :=
          match sc.modelTurn with
          | some parts => accumulateParts c parts
          | none => c
        if sc.turnComplete then flushAssistant now c else c
    (some c, if clientOpen then [.geminiResponse msg] else [])

/-- The `geminiWs.on("pong")` handler (server.js lines 217-224): records
the pong timestamp on the current record, whichever socket the pong came
from (`selfId` is the bound socket; the body never consults it). -/
def geminiPongHandler (selfId : Nat) (now : Nat)
    (connection : Option ConnectionData) : Option ConnectionData :=
  match connection with
  | none => none
  | some c => some { c with lastPong := now }

/-- Runs a list of upstream messages through `geminiMessageHandler` in
arrival order, concatenating the downstream sends. -/
def runGeminiMsgs (selfId : Nat) (clientOpen : Bool) (now : Nat) :
    Option ConnectionData → List GeminiMsg → Option ConnectionData × List DownMsg
  | connection, [] => (connection, [])
  | connection, m :: ms =>
    let r := geminiMessageHandler selfId clientOpen now connection m
    let rest := runGeminiMsgs selfId clientOpen now r.1 ms
    (rest.1, r.2 ++ rest.2)

/-- The state the watchdog interval body reads and writes (server.js lines
177-202): whether the bound socket is still `OPEN` (a forced close moves it
out of `OPEN` immediately), and the probe timestamps. -/
structure WatchdogView where
  wsOpen : Bool
  lastPing : Nat
  lastPong : Nat
deriving DecidableEq

/-- One firing of the watchdog interval (server.js lines 177-202): while
the bound socket is open it stamps `lastPing`, sends a native ping, and
forces `geminiWs.close(1000, "Ping timeout")` when more than
`PONG_TIMEOUT` has elapsed since the last pong.  Returns the new view,
whether a ping was sent, and whether a close was forced. -/
def watchdogTick (now : Nat) (v : WatchdogView) : WatchdogView × Bool × Bool :=
  if v.wsOpen then
    let v := { v with lastPing := now }
    if now - v.lastPong > PONG_TIMEOUT then
      ({ v with wsOpen := false }, true, true)
    else (v, true, false)
  else (v, false, false)

/-- A run of `n` watchdog firings at the scheduled times `start +
PING_INTERVAL * k` during which no pong ever arrives, starting from an open
socket whose last pong was at `start`.  Returns the final view and the
number of forced closes. -/
def silentRun (start : Nat) : Nat → WatchdogView × Nat
  | 0 => ({ wsOpen := true, lastPing := start, lastPong := start }, 0)
  | n + 1 =>
    let r := silentRun start n
    let t := watchdogTick (start + PING_INTERVAL * (n + 1)) r.1
    (t.1, r.2 + if t.2.2 then 1 else 0)

/-- `buildConversationHistory` (server.js lines 80-98): renders the log
into the priming block, or the empty string for an empty log. -/
def buildConversationHistory (conversationLog : List ConversationEntry) : String :=
  if conversationLog.length = 0 then ""
  else
    let history := conversationLog.foldl
      (fun h entry =>
        match entry.role with
        | .user => h ++ "\n[Usuario dijo]: " ++ entry.text ++ "\n"
        | .assistant => h ++ "[Tú respondiste]: " ++ entry.text ++ "\n")
      "\n\n=== HISTORIAL DE CONVERSACIÓN PREVIA ===\n"
    history ++ "\n=== FIN DEL HISTORIAL ===\n" ++
      "IMPORTANTE: Continúa la conversación manteniendo coherencia con este historial. " ++
      "No repitas información ya discutida a menos que sea relevante.\n\n"

/-- The `systemText` of the setup handshake (server.js lines 134-138):
the fixed persona preamble concatenated with the rendered history. -/
def systemTextFor (conversationLog : List ConversationEntry) : String :=
  "Eres un asistente amigable que responde en español de forma clara y concisa. " ++
  "Mantén coherencia con el historial de conversación y evita repetir información ya discutida." ++
  buildConversationHistory conversationLog

/-- The credential environment a given moment offers: the result of a fresh
`getEphemeralToken()` call (`none` models its caught-failure `null`) and
`process.env.GEMINI_API_KEY`. -/
structure CredentialEnv where
  ephemeralToken : Option String
  geminiApiKey : Option String
deriving DecidableEq

/-- How the upstream socket would be authenticated. -/
inductive AuthMethod
  | bearer (token : String)
  | apiKey (key : String)
deriving DecidableEq

/-- The API-key tail of `createGeminiConnection` (server.js lines 69-76):
throws when `GEMINI_API_KEY` is absent. -/
def staticKeyFallback (env : CredentialEnv) : Except String AuthMethod :=
  match env.geminiApiKey with
  | none => Except.error "No hay GEMINI_API_KEY ni credentials.json validos"
  | some k => Except.ok (AuthMethod.apiKey k)

/-- `createGeminiConnection` (server.js lines 49-77): with
`useEphemeralToken` it first tries the ephemeral token and silently falls
back to the API key when the token is unavailable; an `Except.error` models
the thrown `Error`. -/
def createGeminiConnection (env : CredentialEnv) (useEphemeralToken : Bool) :
    Except String AuthMethod :=
  if useEphemeralToken then
    match env.ephemeralToken with
    | some tok => Except.ok (AuthMethod.bearer tok)
    | none => staticKeyFallback env
  else staticKeyFallback env

/-- The kinds of timers the session code creates: the 3 s reconnect
`setTimeout` (server.js line 331, handle stored in
`connection.reconnectTimeout`), the 2 s fallback reconnect `setTimeout`
(server.js line 338, handle stored nowhere), and the watchdog `setInterval`
(server.js line 177, handle stored in `connection.pingInterval`). -/
inductive TimerKind
  | reconnectPrimary
  | reconnectFallback
  | watchdog
deriving DecidableEq

/-- A scheduled timer: its handle id, its kind, its delay in ms, and (for
the watchdog interval) the upstream socket its closure captured. -/
structure SysTimer where
  id : Nat
  kind : TimerKind
  delay : Nat
  wsId : Option Nat
deriving DecidableEq

/-- The single-client system state: the `clientConnections` entry for this
client, whether the downstream socket is open, the timers currently
scheduled, a fresh-id counter for timers and sockets, the set of upstream
sockets currently `OPEN`, and everything sent on either side. -/
structure SysState where
  connection : Option ConnectionData
  clientOpen : Bool
  pending : List SysTimer
  nextId : Nat
  openWs : List Nat
  sentUp : List UpMsg
  sentDown : List DownMsg
deriving DecidableEq

/-- `clearTimeout` / `clearInterval` on handle `i`. -/
def removeTimer (i : Nat) (st : SysState) : SysState :=
  { st with pending := st.pending.filter (fun t => t.id != i) }

/-- The body of `setupGeminiConnection` up to handler registration
(server.js lines 101-125): create the upstream socket (re-raising a
credential failure as the `Bool` "threw" flag, in which case nothing has
been mutated), then build the fresh record — carrying over the existing
log and bumping the reconnect counter — and store it in the registry.  The
new socket starts out connecting, not open. -/
def setupGeminiConnection (env : CredentialEnv) (useEphemeralToken : Bool)
    (now : Nat) (st : SysState) : SysState × Bool :=
  match createGeminiConnection env useEphemeralToken with
  | Except.error _ => (st, true)
  | Except.ok _ =>
    let wsId := st.nextId
    let conn := mkConnectionData st.connection wsId now
    ({ st with connection := some conn, nextId := st.nextId + 1 }, false)

/-- The `geminiWs.on("open")` handler (server.js lines 128-214) for socket
`wsId`: the socket becomes open; the setup handshake is sent with the
system text rendered from the conversation log the closure captured at
setup time; if the registry still has a record the watchdog interval is
started and stored in its `pingInterval`; and if the downstream socket is
open a `ready` envelope is sent using the captured record's reconnect
counter.  (`capturedLog` / `capturedReconnectCount` are the values the
closure captured; in the traces below they coincide with the current
record's.) -/
def geminiOpenEvent (wsId : Nat) (capturedLog : List ConversationEntry)
    (capturedReconnectCount : Nat) (st : SysState) : SysState :=
  let st := { st with openWs := st.openWs ++ [wsId] }
  let st := { st with sentUp := st.sentUp ++ [UpMsg.setup (systemTextFor capturedLog)] }
  let st :=
    match st.connection with
    | some c =>
      { st with
          connection := some { c with pingInterval := some st.nextId },
          pending := st.pending ++
            [({ id := st.nextId, kind := .watchdog, delay := PING_INTERVAL,
                wsId := some wsId } : SysTimer)],
          nextId := st.nextId + 1 }
    | none => st
  if st.clientOpen then
    { st with sentDown := st.sentDown ++
        [DownMsg.ready (capturedLog.length > 0) capturedReconnectCount] }
  else st

/-- The text of the `reconnecting` envelope (server.js lines 322-329). -/
def reconnectingMessage (reconnectCount : Nat) : String :=
  "Reconectando a Gemini... (intento " ++ toString (reconnectCount + 1) ++ ")"

/-- The `geminiWs.on("close")` handler (server.js lines 310-342) for socket
`fromWs`: the socket is no longer open; the current record's watchdog
interval is cleared; and if the record exists and the downstream socket is
open, a `reconnecting` envelope is sent and the 3 s primary reconnect
timer is scheduled, its handle overwriting `connection.reconnectTimeout`.
The body never checks that `fromWs` is the record's current socket. -/
def geminiCloseEvent (fromWs : Nat) (st : SysState) : SysState :=
  match st.connection with
  | none => { st with openWs := st.openWs.filter (fun w => w != fromWs) }
  | some c =>
    let st := { st with openWs := st.openWs.filter (fun w => w != fromWs) }
    let st :=
      match c.pingInterval with
      | some tid => removeTimer tid st
      | none => st
    let c := { c with pingInterval := none }
    let st := { st with connection := some c }
    if st.clientOpen then
      { st with
          connection := some { c with reconnectTimeout := some st.nextId },
          pending := st.pending ++
            [({ id := st.nextId, kind := .reconnectPrimary, delay := 3000,
                wsId := none } : SysTimer)],
          nextId := st.nextId + 1,
          sentDown := st.sentDown ++
            [DownMsg.reconnecting (reconnectingMessage c.reconnectCount) c.reconnectCount] }
    else st

/-- The `clientWs.on("close")` handler (server.js lines 445-460): the
downstream socket is closed; if a record exists, its stored
`reconnectTimeout` and `pingInterval` handles are cleared, its upstream
socket is closed if open, and the record is removed from the registry. -/
def clientCloseEvent (st : SysState) : SysState :=
  let st := { st with clientOpen := false }
  match st.connection with
  | none => st
  | some c =>
    let st :=
      match c.reconnectTimeout with
      | some tid => removeTimer tid st
      | none => st
    let st :=
      match c.pingInterval with
      | some tid => removeTimer tid st
      | none => st
    let st := { st with openWs := st.openWs.filter (fun w => w != c.gemini) }
    { st with connection := none }

/-- Firing of the timer with handle `i` (a cancelled handle never fires).
A `reconnectPrimary` firing is the 3 s callback (server.js lines 331-340):
it runs `setupGeminiConnection(clientWs, true)` and, exactly when that
throws, schedules the 2 s fallback `setTimeout` whose handle is stored
nowhere.  A `reconnectFallback` firing runs
`setupGeminiConnection(clientWs, false)`; a throw there is an unhandled
rejection and schedules nothing.  A watchdog firing is the interval body
(the interval stays scheduled): it acts on the socket and record its
closure captured — observable through the registry only while the current
record still owns this handle; a stale interval's writes land on an
already replaced record and are invisible here. -/
def fireTimer (env : CredentialEnv) (now : Nat) (i : Nat) (st : SysState) :
    SysState :=
  match st.pending.find? (fun t => t.id == i) with
  | none => st
  | some t =>
    match t.kind with
    | .reconnectPrimary =>
      let st := removeTimer i st
      let r := setupGeminiConnection env true now st
      if r.2 then
        { r.1 with
            pending := r.1.pending ++
              [({ id := r.1.nextId, kind := .reconnectFallback, delay := 2000,
                  wsId := none } : SysTimer)],
            nextId := r.1.nextId + 1 }
      else r.1
    | .reconnectFallback =>
      let st := removeTimer i st
      (setupGeminiConnection env false now st).1
    | .watchdog =>
      match st.connection with
      | some c =>
        if c.pingInterval == some i then
          match t.wsId with
          | some w =>
            if st.openWs.contains w then
              let c := { c with lastPing := now }
              if now - c.lastPong > PONG_TIMEOUT then
                { st with
                    connection := some c,
                    openWs := st.openWs.filter (fun x => x != w) }
              else { st with connection := some c }
            else st
          | none => st
        else st
      | none => st

/-- A record whose current upstream socket is number 1; used to probe what
an event bound to the superseded socket 0 does to it. -/
def c1SupersededConn : ConnectionData :=
  { gemini := 1, reconnectTimeout := none, conversationLog := [],
    pingInterval := none, lastPong := 0, lastPing := 0, currentUserText := "",
    currentAssistantText := "", reconnectCount := 3, audioBuffers := [] }

/-- An upstream event carrying one model-turn text fragment. -/
def c1TextMsg : GeminiMsg :=
  { serverContent := some
      { modelTurn := some [{ text := some "x", inlineData := none }],
        turnComplete := false } }

/-- A credential environment in which the ephemeral-token exchange succeeds
but no static API key is configured. -/
def c2EnvTokenOnly : CredentialEnv :=
  { ephemeralToken := some "tok", geminiApiKey := none }

/-- A credential environment in which the token exchange fails (returns
`null`) and no static API key is configured: `createGeminiConnection`
throws. -/
def c2EnvNoCreds : CredentialEnv :=
  { ephemeralToken := none, geminiApiKey := none }

/-- A credential environment offering only the static API key. -/
def c2EnvKeyOnly : CredentialEnv :=
  { ephemeralToken := none, geminiApiKey := some "key" }

/-- The state right after the downstream client connects, before the first
`setupGeminiConnection` call. -/
def freshClientState : SysState :=
  { connection := none, clientOpen := true, pending := [], nextId := 0,
    openWs := [], sentUp := [], sentDown := [] }

/-- The teardown trace for claim C2: the initial connection is established
over socket 0 (ephemeral token available) and opens; socket 0 then closes,
scheduling the 3 s primary reconnect timer (handle 2); that timer fires
while the token exchange fails and no API key is configured, so
`setupGeminiConnection` throws and the catch schedules the 2 s fallback
timer (handle 3), whose handle is stored nowhere; the downstream client
then disconnects, running the teardown handler. -/
def c2Teardown : SysState :=
  let st := (setupGeminiConnection c2EnvTokenOnly true 0 freshClientState).1
  let st := geminiOpenEvent 0 [] 0 st
  let st := geminiCloseEvent 0 st
  let st := fireTimer c2EnvNoCreds 3030 2 st
  clientCloseEvent st

/-- The fallback reconnect timer left pending by the C2 trace. -/
def c2OrphanTimer : SysTimer :=
  { id := 3, kind := .reconnectFallback, delay := 2000, wsId := none }

/-- A log entry used to fill the conversation log to its cap. -/
def c3Entry : ConversationEntry := { role := .user, text := "m", timestamp := 0 }

/-- A record whose conversation log already holds exactly 30 entries and
whose user-utterance accumulator is non-empty. -/
def c3OverflowConn : ConnectionData :=
  { gemini := 0, reconnectTimeout := none,
    conversationLog := List.replicate 30 c3Entry, pingInterval := none,
    lastPong := 0, lastPing := 0, currentUserText := "x",
    currentAssistantText := "", reconnectCount := 0, audioBuffers := [] }

/-- A state whose only pending timer is a primary reconnect timer with
handle 0, as left by a `geminiWs.on("close")` on a torn-down watchdog. -/
def c5PrimaryPendingState : SysState :=
  { connection := none, clientOpen := true,
    pending := [{ id := 0, kind := .reconnectPrimary, delay := 3000, wsId := none }],
    nextId := 1, openWs := [], sentUp := [], sentDown := [] }

/-- Upstream model-turn event carrying the text fragment `"Hola"`. -/
def c8HolaMsg : GeminiMsg :=
  { serverContent := some
      { modelTurn := some [{ text := some "Hola", inlineData := none }],
        turnComplete := false } }

/-- Upstream model-turn event carrying the text fragment `" mundo"`. -/
def c8MundoMsg : GeminiMsg :=
  { serverContent := some
      { modelTurn := some [{ text := some " mundo", inlineData := none }],
        turnComplete := false } }

/-- Upstream event marked turn-complete, with no model turn. -/
def c8DoneMsg : GeminiMsg :=
  { serverContent := some { modelTurn := none, turnComplete := true } }

/-- Claim C1 (as stated, refuted here): an event delivered on a superseded
upstream connection must never mutate the session state owned by the
connection that replaced it.  Concretely: the current record owns socket 1,
yet a model-turn message handled by the listener bound to the superseded
socket 0 still mutates that record — the handler looks the record up by the
client key and never checks which socket delivered the event. -/
theorem claim_C1_counterexample :
    (0 : Nat) ≠ c1SupersededConn.gemini ∧
    (geminiMessageHandler 0 true 7 (some c1SupersededConn) c1TextMsg).1 ≠
      some c1SupersededConn := by
  decide

/-- Claim C1 (amended): exactly one record (hence one upstream connection
object) is current per session at any instant, but events delivered on a
superseded upstream connection are applied to the current session state
exactly as events delivered on the current one: the message and pong
handlers of server.js are independent of the socket they are bound to,
acting always on the record fetched from `clientConnections` by the client
key. -/
theorem claim_C1_theorem :
    (∀ a b clientOpen now connection msg,
      geminiMessageHandler a clientOpen now connection msg =
        geminiMessageHandler b clientOpen now connection msg) ∧
    (∀ a b now connection,
      geminiPongHandler a now connection = geminiPongHandler b now connection) :=
  ⟨fun _ _ _ _ _ _ => rfl, fun _ _ _ _ => rfl⟩

/-- Claim C2 (code bug, evaluated at the failing trace): after the
downstream client disconnects, the 2 s fallback reconnect timer scheduled
by the failed primary attempt is still pending — `clientWs.on("close")`
cancels only the handles stored in `connection.reconnectTimeout` and
`connection.pingInterval`, and the fallback `setTimeout` handle is stored
nowhere (server.js line 338).  The registry entry is gone and the client
closed, yet the timer remains live: firing it runs
`setupGeminiConnection(clientWs, false)` — a no-op only when the API key
is also missing at that instant (the call then throws, as an unhandled
rejection), and a re-insertion of a fresh record into the registry of the
torn-down session whenever the static key is available. -/
theorem claim_C2_theorem :
    c2Teardown.clientOpen = false ∧
    c2Teardown.connection = none ∧
    c2Teardown.pending = [c2OrphanTimer] ∧
    (fireTimer c2EnvKeyOnly 5030 3 c2Teardown).connection =
      some (mkConnectionData none 4 5030) := by
  decide

/-- Claim C3 (code bug, evaluated at the failing input): a downstream
`turn_complete` that flushes pending user text onto a conversation log
already holding 30 entries leaves 31 entries — the user-append path
(server.js lines 397-419) has no trim, unlike the assistant-append path. -/
theorem claim_C3_theorem :
    c3OverflowConn.conversationLog.length = 30 ∧
    ((clientMessageHandler true true 1 c3OverflowConn .turnComplete).1).conversationLog.length
      = 31 := by
  decide

/-- Claim C9: processing a downstream `clear_history` message empties the
conversation log, both utterance accumulators and the pending-audio list,
and sends exactly the `history_cleared` acknowledgment to the downstream
client, regardless of the upstream socket's state. -/
theorem claim_C9_theorem (geminiOpen : Bool) (now : Nat) (connection : ConnectionData) :
    clientMessageHandler geminiOpen true now connection .clearHistory =
      ({ connection with
          conversationLog := [], currentUserText := "",
          currentAssistantText := "", audioBuffers := [] },
       [], [DownMsg.historyCleared]) :=
  rfl

/-- Claim C10: when the current upstream socket is not open, a downstream
`turn_complete` leaves the record entirely unchanged — no flush of the
user-utterance accumulator, no clearing of the accumulator or the
pending-audio list — and nothing is sent in either direction. -/
theorem claim_C10_theorem (clientOpen : Bool) (now : Nat) (connection : ConnectionData) :
    clientMessageHandler false clientOpen now connection .turnComplete =
      (connection, [], []) :=
  rfl

/-- Flushing the assistant accumulator onto a log that is not yet at the
30-entry cap is a plain append. -/
theorem flushAssistant_below_cap (now : Nat) (c : ConnectionData)
    (hne : jsTrim c.currentAssistantText ≠ "")
    (hlen : c.conversationLog.length ≤ 29) :
    flushAssistant now c =
      { c with
          conversationLog := c.conversationLog ++
            [{ role := .assistant, text := jsTrim c.currentAssistantText,
               timestamp := now }],
          currentAssistantText := "" } := by
  unfold flushAssistant
  rw [if_pos hne]
  simp only [List.length_append, List.length_singleton]
  rw [if_neg (by omega)]

/-- Claim C7: with the upstream socket open and an empty user-utterance
accumulator, the downstream sequence `audio_chunk` ×3, `user_transcript`
"hola", `turn_complete` appends exactly one `user` entry with text "hola"
to the conversation log, leaves the pending-audio list empty, and forwards
the three media chunks plus exactly one end-of-turn marker upstream. -/
theorem claim_C7_theorem (clientOpen : Bool) (now g lq lp rc : Nat)
    (rt pi : Option Nat) (L : List ConversationEntry) (cat : String)
    (B : List String) (a1 a2 a3 : String) :
    runClientMsgs true clientOpen now
      { gemini := g, reconnectTimeout := rt, conversationLog := L,
        pingInterval := pi, lastPong := lq, lastPing := lp,
        currentUserText := "", currentAssistantText := cat,
        reconnectCount := rc, audioBuffers := B }
      [.audioChunk a1, .audioChunk a2, .audioChunk a3,
       .userTranscript "hola", .turnComplete] =
      ({ gemini := g, reconnectTimeout := rt,
         conversationLog := L ++
           [{ role := .user, text := "hola", timestamp := now }],
         pingInterval := pi, lastPong := lq, lastPing := lp,
         currentUserText := "", currentAssistantText := cat,
         reconnectCount := rc, audioBuffers := [] },
       [.realtimeAudio "audio/pcm" a1, .realtimeAudio "audio/pcm" a2,
        .realtimeAudio "audio/pcm" a3, .realtimeEndOfTurn],
       []) :=
  rfl

/-- Claim C8: with an empty assistant accumulator and a conversation log
below the cap, the upstream sequence of two model-turn events carrying the
fragments "Hola" and " mundo" followed by a turn-complete event appends
exactly one `assistant` entry with text "Hola mundo" and empties the
accumulator. -/
theorem claim_C8_theorem (selfId : Nat) (clientOpen : Bool)
    (now g lq lp rc : Nat) (rt pi : Option Nat) (L : List ConversationEntry)
    (cut : String) (B : List String) (h : L.length ≤ 29) :
    (runGeminiMsgs selfId clientOpen now
      (some { gemini := g, reconnectTimeout := rt, conversationLog := L,
              pingInterval := pi, lastPong := lq, lastPing := lp,
              currentUserText := cut, currentAssistantText := "",
              reconnectCount := rc, audioBuffers := B })
      [c8HolaMsg, c8MundoMsg, c8DoneMsg]).1 =
      some { gemini := g, reconnectTimeout := rt,
             conversationLog := L ++
               [{ role := .assistant, text := "Hola mundo", timestamp := now }],
             pingInterval := pi, lastPong := lq, lastPing := lp,
             currentUserText := cut, currentAssistantText := "",
             reconnectCount := rc, audioBuffers := B } := by
  have step :
      (runGeminiMsgs selfId clientOpen now
        (some { gemini := g, reconnectTimeout := rt, conversationLog := L,
                pingInterval := pi, lastPong := lq, lastPing := lp,
                currentUserText := cut, currentAssistantText := "",
                reconnectCount := rc, audioBuffers := B })
        [c8HolaMsg, c8MundoMsg, c8DoneMsg]).1 =
      some (flushAssistant now
        { gemini := g, reconnectTimeout := rt, conversationLog := L,
          pingInterval := pi, lastPong := lq, lastPing := lp,
          currentUserText := cut,
          currentAssistantText := ("" ++ "Hola") ++ " mundo",
          reconnectCount := rc, audioBuffers := B }) := rfl
  have hne : jsTrim (("" ++ "Hola") ++ " mundo") ≠ "" := by decide
  rw [step, flushAssistant_below_cap _ _ hne h]
  rfl

/-- Claim C8 witness: the scenario evaluated at a session with an empty
log. -/
theorem claim_C8_witness :
    (runGeminiMsgs 9 true 42
      (some { gemini := 0, reconnectTimeout := none, conversationLog := [],
              pingInterval := none, lastPong := 0, lastPing := 0,
              currentUserText := "", currentAssistantText := "",
              reconnectCount := 0, audioBuffers := [] })
      [c8HolaMsg, c8MundoMsg, c8DoneMsg]).1 =
      some { gemini := 0, reconnectTimeout := none,
             conversationLog :=
               [{ role := .assistant, text := "Hola mundo", timestamp := 42 }],
             pingInterval := none, lastPong := 0, lastPing := 0,
             currentUserText := "", currentAssistantText := "",
             reconnectCount := 0, audioBuffers := [] } := by
  have := claim_C8_theorem 9 true 42 0 0 0 0 none none [] "" []
    (by decide)
  simpa using this

/-- Scanning one model-turn part only touches the assistant accumulator. -/
theorem accumulatePart_reconnectCount (c : ConnectionData) (p : MsgPart) :
    (accumulatePart c p).reconnectCount = c.reconnectCount := by
  rcases p with ⟨t, idata⟩
  cases t <;> cases idata <;> simp only [accumulatePart] <;>
    first
    | rfl
    | (split
       · split <;> rfl
       · rfl)

/-- Scanning a parts list only touches the assistant accumulator. -/
theorem accumulateParts_reconnectCount (parts : List MsgPart) :
    ∀ c, (accumulateParts c parts).reconnectCount = c.reconnectCount := by
  induction parts with
  | nil => intro c; rfl
  | cons p ps ih =>
    intro c
    have : accumulateParts c (p :: ps) = accumulateParts (accumulatePart c p) ps := rfl
    rw [this, ih, accumulatePart_reconnectCount]

/-- Flushing the assistant accumulator never touches the reconnect
counter. -/
theorem flushAssistant_reconnectCount (now : Nat) (c : ConnectionData) :
    (flushAssistant now c).reconnectCount = c.reconnectCount := by
  unfold flushAssistant
  split <;> rfl

/-- Claim C4: the reconnect-attempt counter starts at 0 for the first
connection, is bumped by exactly 1 each time `setupGeminiConnection`
re-establishes an upstream connection for the same session (and only
then), and no message, pong, upstream-close or upstream-open handler ever
changes it — so it is never reset or decreased while the session lives. -/
theorem claim_C4_theorem :
    (∀ w now, (mkConnectionData none w now).reconnectCount = 0) ∧
    (∀ e w now, (mkConnectionData (some e) w now).reconnectCount =
      e.reconnectCount + 1) ∧
    (∀ env useEphemeralToken now st,
      (setupGeminiConnection env useEphemeralToken now st).1.connection =
        match createGeminiConnection env useEphemeralToken with
        | Except.ok _ => some (mkConnectionData st.connection st.nextId now)
        | Except.error _ => st.connection) ∧
    (∀ geminiOpen clientOpen now connection msg,
      ((clientMessageHandler geminiOpen clientOpen now connection msg).1).reconnectCount =
        connection.reconnectCount) ∧
    (∀ selfId clientOpen now connection msg,
      ((geminiMessageHandler selfId clientOpen now connection msg).1).map
          ConnectionData.reconnectCount =
        connection.map ConnectionData.reconnectCount) ∧
    (∀ selfId now connection,
      (geminiPongHandler selfId now connection).map ConnectionData.reconnectCount =
        connection.map ConnectionData.reconnectCount) ∧
    (∀ fromWs st,
      ((geminiCloseEvent fromWs st).connection).map ConnectionData.reconnectCount =
        (st.connection).map ConnectionData.reconnectCount) ∧
    (∀ wsId capturedLog capturedReconnectCount st,
      ((geminiOpenEvent wsId capturedLog capturedReconnectCount st).connection).map
          ConnectionData.reconnectCount =
        (st.connection).map ConnectionData.reconnectCount) := by
  refine ⟨fun _ _ => rfl, fun _ _ _ => rfl, ?_, ?_, ?_, ?_, ?_, ?_⟩
  · intro env useEphemeralToken now st
    unfold setupGeminiConnection
    cases createGeminiConnection env useEphemeralToken <;> rfl
  · intro geminiOpen clientOpen now connection msg
    cases msg <;> simp only [clientMessageHandler] <;>
      first
      | rfl
      | (split <;> first | rfl | (split <;> rfl))
  · intro selfId clientOpen now connection msg
    cases connection with
    | none => rfl
    | some c =>
      rcases msg with ⟨_ | ⟨mt, tc⟩⟩
      · rfl
      · cases mt with
        | none =>
          cases tc <;>
            simp [geminiMessageHandler, flushAssistant_reconnectCount]
        | some parts =>
          cases tc <;>
            simp [geminiMessageHandler, flushAssistant_reconnectCount,
              accumulateParts_reconnectCount]
  · intro selfId now connection
    cases connection <;> rfl
  · intro fromWs st
    cases hc : st.connection with
    | none => simp [geminiCloseEvent, hc]
    | some c =>
      simp only [geminiCloseEvent, hc]
      cases c.pingInterval <;> split <;> rfl
  · intro wsId capturedLog capturedReconnectCount st
    cases hc : st.connection with
    | none =>
      simp only [geminiOpenEvent, hc]
      split <;> rfl
    | some c =>
      simp only [geminiOpenEvent, hc]
      split <;> rfl

/-- Claim C5: when the scheduled (3 s, ephemeral-preferring) reconnection
attempt throws, firing it schedules exactly one further timer — the 2 s
fallback — and nothing else changes; the fallback attempt takes the
static-key path only (`createGeminiConnection` with `useEphemeralToken =
false` is exactly the static-key lookup, never consulting the ephemeral
token); and firing the fallback timer never schedules any further timer,
so no third automatic attempt exists. -/
theorem claim_C5_theorem :
    (∀ env, createGeminiConnection env false = staticKeyFallback env) ∧
    (∀ env now i st t e,
      st.pending.find? (fun x => x.id == i) = some t →
      t.kind = TimerKind.reconnectPrimary →
      createGeminiConnection env true = Except.error e →
      fireTimer env now i st =
        { st with
            pending := st.pending.filter (fun x => x.id != i) ++
              [{ id := st.nextId, kind := .reconnectFallback, delay := 2000,
                 wsId := none }],
            nextId := st.nextId + 1 }) ∧
    (∀ env now i st t,
      st.pending.find? (fun x => x.id == i) = some t →
      t.kind = TimerKind.reconnectFallback →
      (fireTimer env now i st).pending = st.pending.filter (fun x => x.id != i)) := by
  refine ⟨fun _ => rfl, ?_, ?_⟩
  · intro env now i st t e hfind hkind herr
    simp only [fireTimer, hfind, hkind, removeTimer, setupGeminiConnection, herr]
    rfl
  · intro env now i st t hfind hkind
    simp only [fireTimer, hfind, hkind, removeTimer, setupGeminiConnection]
    cases createGeminiConnection env false <;> rfl

/-- Claim C5 witness: firing the pending primary reconnect timer in an
environment with neither credential schedules exactly the one 2 s
fallback timer. -/
theorem claim_C5_witness :
    fireTimer c2EnvNoCreds 3000 0 c5PrimaryPendingState =
      { c5PrimaryPendingState with
          pending := [{ id := 1, kind := .reconnectFallback, delay := 2000,
                        wsId := none }],
          nextId := 2 } := by
  have h := claim_C5_theorem.2.1 c2EnvNoCreds 3000 0 c5PrimaryPendingState
    { id := 0, kind := .reconnectPrimary, delay := 3000, wsId := none }
    "No hay GEMINI_API_KEY ni credentials.json validos" (by decide) rfl rfl
  rw [h]
  decide

/-- A tick on an open socket within the timeout: stamp and ping, no
close. -/
theorem watchdogTick_open_noclose (now : Nat) (v : WatchdogView)
    (h : v.wsOpen = true) (hc : now - v.lastPong ≤ PONG_TIMEOUT) :
    watchdogTick now v = ({ v with lastPing := now }, true, false) := by
  unfold watchdogTick
  rw [h]
  simp only [if_true]
  rw [if_neg (by omega)]

/-- A tick on an open socket past the timeout: stamp, ping and force the
close. -/
theorem watchdogTick_open_close (now : Nat) (v : WatchdogView)
    (h : v.wsOpen = true) (hc : now - v.lastPong > PONG_TIMEOUT) :
    watchdogTick now v =
      ({ v with lastPing := now, wsOpen := false }, true, true) := by
  unfold watchdogTick
  rw [h]
  simp only [if_true]
  rw [if_pos (by omega)]

/-- A tick on a socket that is no longer open does nothing. -/
theorem watchdogTick_closed (now : Nat) (v : WatchdogView)
    (h : v.wsOpen = false) :
    watchdogTick now v = (v, false, false) := by
  unfold watchdogTick
  rw [h]
  rfl

/-- Characterisation of a silent run: the pong stamp never moves, the
socket stays open for the first two ticks and is closed from the third on,
and the total number of forced closes is 0 before the third tick and
exactly 1 afterwards. -/
theorem silentRun_spec (start : Nat) (n : Nat) :
    (silentRun start n).1.lastPong = start ∧
    (silentRun start n).1.wsOpen = decide (n ≤ 2) ∧
    (silentRun start n).2 = if 3 ≤ n then 1 else 0 := by
  induction n with
  | zero => exact ⟨rfl, rfl, rfl⟩
  | succ n ih =>
    obtain ⟨hpong, hopen, hcount⟩ := ih
    rcases Nat.lt_or_ge n 2 with hlt | hge
    · have hop : (silentRun start n).1.wsOpen = true := by
        rw [hopen]; exact decide_eq_true (by omega)
      have htick := watchdogTick_open_noclose (start + PING_INTERVAL * (n + 1))
        (silentRun start n).1 hop
        (by rw [hpong]; unfold PING_INTERVAL PONG_TIMEOUT; omega)
      simp only [silentRun, htick]
      refine ⟨hpong, ?_, ?_⟩
      · rw [hop]
        exact (decide_eq_true (by omega)).symm
      · rw [hcount, if_neg (show ¬ (3 : Nat) ≤ n from by omega),
          if_neg (show ¬ (3 : Nat) ≤ n + 1 from by omega)]
        rfl
    · rcases Nat.lt_or_ge n 3 with hlt3 | hge3
      · have hop : (silentRun start n).1.wsOpen = true := by
          rw [hopen]; exact decide_eq_true (by omega)
        have htick := watchdogTick_open_close (start + PING_INTERVAL * (n + 1))
          (silentRun start n).1 hop
          (by rw [hpong]; unfold PING_INTERVAL PONG_TIMEOUT; omega)
        simp only [silentRun, htick]
        refine ⟨hpong, ?_, ?_⟩
        · exact (decide_eq_false (by omega)).symm
        · rw [hcount, if_neg (show ¬ (3 : Nat) ≤ n from by omega),
            if_pos (show (3 : Nat) ≤ n + 1 from by omega)]
          rfl
      · have hop : (silentRun start n).1.wsOpen = false := by
          rw [hopen]; exact decide_eq_false (by omega)
        have htick := watchdogTick_closed (start + PING_INTERVAL * (n + 1))
          (silentRun start n).1 hop
        simp only [silentRun, htick]
        refine ⟨hpong, ?_, ?_⟩
        · rw [hop]
          exact (decide_eq_false (by omega)).symm
        · rw [hcount, if_pos (show (3 : Nat) ≤ n from by omega),
            if_pos (show (3 : Nat) ≤ n + 1 from by omega)]
          rfl

/-- Claim C6: the watchdog probes exactly while its bound socket is open
(at the fixed 20 s interval, against the 45 s silence threshold); a probe
never forces a close while no more than `PONG_TIMEOUT` has elapsed since
the last acknowledgment — in particular never after a single unacknowledged
probe interval — and over any run of probes with no acknowledgment at all,
the bound connection is closed exactly once (from the third probe on),
never repeatedly. -/
theorem claim_C6_theorem :
    PING_INTERVAL = 20000 ∧
    PONG_TIMEOUT = 45000 ∧
    (∀ now v, (watchdogTick now v).2.1 = v.wsOpen) ∧
    (∀ now v, v.wsOpen = true → now - v.lastPong ≤ PONG_TIMEOUT →
      (watchdogTick now v).2.2 = false) ∧
    (∀ v, v.wsOpen = true →
      (watchdogTick (v.lastPong + PING_INTERVAL) v).2.2 = false) ∧
    (∀ start n, (silentRun start n).2 = if 3 ≤ n then 1 else 0) := by
  refine ⟨rfl, rfl, ?_, ?_, ?_, ?_⟩
  · intro now v
    cases h : v.wsOpen
    · rw [watchdogTick_closed now v h]
    · by_cases hc : now - v.lastPong ≤ PONG_TIMEOUT
      · rw [watchdogTick_open_noclose now v h hc]
      · rw [watchdogTick_open_close now v h (by omega)]
  · intro now v h hc
    rw [watchdogTick_open_noclose now v h hc]
  · intro v h
    rw [watchdogTick_open_noclose _ v h
      (by unfold PING_INTERVAL PONG_TIMEOUT; omega)]
  · intro start n
    exact (silentRun_spec start n).2.2

/-- Claim C6 witness: a probe 20 s after the last pong does not close the
socket, and a fully silent run of five probes closes it exactly once. -/
theorem claim_C6_witness :
    (watchdogTick 20000 { wsOpen := true, lastPing := 0, lastPong := 0 }).2.2
      = false ∧
    (silentRun 0 5).2 = 1 := by
  refine ⟨?_, ?_⟩
  · exact claim_C6_theorem.2.2.2.1 20000
      { wsOpen := true, lastPing := 0, lastPong := 0 } rfl (by decide)
  · have h := claim_C6_theorem.2.2.2.2.2 0 5
    rw [h]
    decide

end GeminiRelay
